import Mathlib

/-!
Shallow embedding of the user_hub authentication core:
the JWT utility (src/dependencies/jwt_token.go), the JTI blacklist and
captcha repositories (repository/redis), the auth token service
(src/service/token/token.go) and the three login services
(src/service/login/auth/account.go, src/service/login/oAuth/wechat.go).

Machine-level conventions of the embedding:
- instants and durations are `Int` seconds; `time.Until(e)` at instant
  `now` is `e - now`;
- a signed JWT is represented symbolically as its claims plus the secret
  it was signed with; any other byte string is `malformed`;
- fallible collaborator calls (Redis, MySQL, bcrypt, the WeChat API) are
  parameterised by explicit success oracles, so every failure path of the
  Go code is a reachable branch of the Lean definition;
- a GORM transaction either applies all of its inserts or, on the first
  failing insert, returns an error and leaves the database unchanged
  (rollback).
-/

namespace UserHub

/-- User roles, from go-common enums (swagger x-enum-varnames order:
RoleAdmin=0, RoleUser=1, RoleGuest=2). The Go zero value is `admin`.
(The hand-written comment in src/models/entities/user.go claiming
0=guest is wrong about go-common's numbering.) -/
inductive UserRole
  | admin
  | user
  | guest
  deriving DecidableEq, Repr

/-- User statuses, from go-common enums: StatusActive=0,
StatusBlacklisted=1 (the only two values; Status binds oneof=0 1).
The Go zero value is `active`. -/
inductive UserStatus
  | active
  | blacklisted
  deriving DecidableEq, Repr

/-- Client platforms (go-common enums.Platform). -/
inductive Platform
  | web
  | app
  | miniProgram
  deriving DecidableEq, Repr

/-- Identity provider types, src/models/enums/identityType.go. -/
inductive IdentityType
  | accountPassword
  | wechatMiniProgram
  | phone
  deriving DecidableEq, Repr

/-- CustomClaims of src/dependencies/jwt_token.go: the custom fields plus
the embedded jwt.RegisteredClaims fields that the code uses
(Issuer, IssuedAt, ExpiresAt, ID). `expiresAt` is optional because
jwt.RegisteredClaims.ExpiresAt is a nullable pointer. -/
structure CustomClaims where
  userID : String
  role : UserRole
  status : UserStatus
  platform : Platform
  issuer : String
  issuedAt : Int
  expiresAt : Option Int
  jti : String
  deriving DecidableEq, Repr

/-- A token string: either a well-formed JWT carrying claims and signed
with a secret, or arbitrary malformed bytes. -/
inductive TokenString
  | signed (claims : CustomClaims) (secret : String)
  | malformed (raw : String)
  deriving DecidableEq, Repr

/-- JWTConfig of src/config: the fields jwt_token.go reads. -/
structure JWTConfig where
  secretKey : String
  refreshSecret : String
  issuer : String
  deriving DecidableEq, Repr

/-- src/constants/token.go: AccessTokenTTL = 15 minutes, in seconds. -/
def AccessTokenTTL : Int := 15 * 60

/-- src/constants/token.go: RefreshTokenTTL = 10 days, in seconds. -/
def RefreshTokenTTL : Int := 10 * 24 * 60 * 60

/-- JWTUtility.GenerateAccessToken: stamps the caller's userID, role,
status, platform, the configured issuer, IssuedAt = now,
ExpiresAt = now + AccessTokenTTL and a fresh JTI (the `jti` argument
stands for the freshly drawn uuid), signed with cfg.SecretKey. -/
def GenerateAccessToken (cfg : JWTConfig) (now : Int) (jti : String)
    (userID : String) (role : UserRole) (status : UserStatus)
    (platform : Platform) : TokenString :=
  .signed
    { userID := userID
      role := role
      status := status
      platform := platform
      issuer := cfg.issuer
      issuedAt := now
      expiresAt := some (now + AccessTokenTTL)
      jti := jti }
    cfg.secretKey

/-- JWTUtility.GenerateRefreshToken: the Go literal sets only UserID and
Platform, so Role and Status are left at their Go zero values
(RoleAdmin = 0, StatusActive = 0); ExpiresAt = now + RefreshTokenTTL,
signed with cfg.RefreshSecret. -/
def GenerateRefreshToken (cfg : JWTConfig) (now : Int) (jti : String)
    (userID : String) (platform : Platform) : TokenString :=
  .signed
    { userID := userID
      role := .admin
      status := .active
      platform := platform
      issuer := cfg.issuer
      issuedAt := now
      expiresAt := some (now + RefreshTokenTTL)
      jti := jti }
    cfg.refreshSecret

/-- Typed parse failures of jwt v5 as used by parseToken. -/
inductive ParseErr
  | malformedToken
  | signatureInvalid
  | expMissing
  | expired
  | issuerMismatch
  deriving DecidableEq, Repr

/-- JWTUtility.parseToken with the jwt v5 parser options used in
ParseAccessToken / ParseRefreshToken: verifies the HMAC signature against
`secret`, requires an expiration claim (WithExpirationRequired), rejects
tokens whose expiry is not in the future, and verifies the issuer
(WithIssuer). -/
def parseToken (secret issuer : String) (now : Int) :
    TokenString → Except ParseErr CustomClaims
  | .malformed _ => .error .malformedToken
  | .signed c s =>
    if s ≠ secret then .error .signatureInvalid
    else
      match c.expiresAt with
      | none => .error .expMissing
      | some e =>
        if e ≤ now then .error .expired
        else if c.issuer ≠ issuer then .error .issuerMismatch
        else .ok c

/-- JWTUtility.ParseAccessToken: parseToken with cfg.SecretKey. -/
def ParseAccessToken (cfg : JWTConfig) (now : Int) (tok : TokenString) :
    Except ParseErr CustomClaims :=
  parseToken cfg.secretKey cfg.issuer now tok

/-- JWTUtility.ParseRefreshToken: parseToken with cfg.RefreshSecret. -/
def ParseRefreshToken (cfg : JWTConfig) (now : Int) (tok : TokenString) :
    Except ParseErr CustomClaims :=
  parseToken cfg.refreshSecret cfg.issuer now tok

/-!  Redis-backed repositories (src/unnamed/part_013, part_014). -/

/-- The JTI blacklist state: a key with per-key TTL, represented as the
absolute instant at which the Redis key expires (none = key absent).
A key set at `now` with duration `ttl` exists exactly while `t < now + ttl`. -/
def Blacklist := String → Option Int

/-- The empty blacklist. -/
def Blacklist.empty : Blacklist := fun _ => none

/-- tokenBlackRepo.IsJtiBlacklisted (the Redis EXISTS on the jti key),
evaluated at instant `now`: true iff a not-yet-expired entry exists. -/
def IsJtiBlacklisted (bl : Blacklist) (now : Int) (jti : String) : Bool :=
  match bl jti with
  | some e => decide (now < e)
  | none => false

/-- tokenBlackRepo.AddJtiToBlacklist: if `ttl <= 0` it logs a warning and
returns nil without touching Redis; otherwise it issues a Redis SET with
expiry `ttl`, which fails iff the write oracle `writeOk` is false. -/
def AddJtiToBlacklist (writeOk : Bool) (bl : Blacklist) (now : Int)
    (jti : String) (ttl : Int) : Except Unit Blacklist :=
  if ttl ≤ 0 then .ok bl
  else if writeOk then
    .ok (fun j => if j = jti then some (now + ttl) else bl j)
  else .error ()

/-- tokenBlackRepo.IsJtiBlacklisted as a fallible call: the Redis EXISTS
errors iff the read oracle `readOk` is false. -/
def IsJtiBlacklistedCall (readOk : Bool) (bl : Blacklist) (now : Int)
    (jti : String) : Except Unit Bool :=
  if readOk then .ok (IsJtiBlacklisted bl now jti) else .error ()

/-- The captcha store of codeRepo: phone number to currently stored code
(none = absent or expired, which codeRepo.GetCaptcha reports as
ErrRepoNotFound). -/
def CaptchaStore := String → Option String

/-- codeRepo.DeleteCaptcha applied to the store: removes the key. -/
def deleteCaptcha (store : CaptchaStore) (phone : String) : CaptchaStore :=
  fun p => if p = phone then none else store p

/-!  MySQL entities and repositories (src/models/entities,
src/repository/mysql, src/unnamed/part_015, part_016). -/

/-- entities.User, restricted to the fields the auth core reads/writes. -/
structure User where
  userID : String
  userRole : UserRole
  status : UserStatus
  deriving DecidableEq, Repr

/-- entities.UserIdentity, restricted to the fields the auth core uses.
GetIdentityByTypeAndIdentifier selects (user_id, credential) from these
rows. -/
structure UserIdentity where
  userID : String
  identityType : IdentityType
  identifier : String
  credential : String
  deriving DecidableEq, Repr

/-- entities.UserProfile, restricted to the fields written at
registration. -/
structure UserProfile where
  userID : String
  nickname : String
  deriving DecidableEq, Repr

/-- The relational store: the three tables of the identity model. -/
structure DBState where
  users : List User
  identities : List UserIdentity
  profiles : List UserProfile
  deriving DecidableEq, Repr

/-- Outcome of a repository lookup: the row, GORM record-not-found
(mapped to commonerrors.ErrRepoNotFound), or any other database error. -/
inductive Lookup (α : Type)
  | found (a : α)
  | notFound
  | dbError
  deriving DecidableEq, Repr

/-- The SELECT behind identityRepo.GetIdentityByTypeAndIdentifier. -/
def DBState.getIdentity (db : DBState) (ty : IdentityType) (idf : String) :
    Option UserIdentity :=
  db.identities.find? fun i => decide (i.identityType = ty ∧ i.identifier = idf)

/-- The SELECT behind userRepository.GetUserByID. -/
def DBState.getUser (db : DBState) (uid : String) : Option User :=
  db.users.find? fun u => decide (u.userID = uid)

/-- identityRepo.GetIdentityByTypeAndIdentifier as a fallible call:
ErrRepoNotFound when no row matches, an opaque database error when the
connection oracle `ok` is false. -/
def getIdentityCall (ok : Bool) (db : DBState) (ty : IdentityType)
    (idf : String) : Lookup UserIdentity :=
  if ok then
    match db.getIdentity ty idf with
    | some i => .found i
    | none => .notFound
  else .dbError

/-- userRepository.GetUserByID as a fallible call. -/
def getUserCall (ok : Bool) (db : DBState) (uid : String) : Lookup User :=
  if ok then
    match db.getUser uid with
    | some u => .found u
    | none => .notFound
  else .dbError

/-- The db.Transaction(...) block shared by accountService.Register,
phoneAuthService.LoginOrRegister and
wechatMiniProgramService.LoginOrRegister: CreateUser, CreateIdentity and
CreateProfile run in order inside one GORM transaction; the first insert
whose oracle is false aborts the transaction, which rolls back, leaving
the store unchanged (the caller keeps the original `db`); if all three
succeed the three rows are committed together. -/
def registerTransaction (okUser okIdentity okProfile : Bool) (db : DBState)
    (u : User) (i : UserIdentity) (p : UserProfile) : Except Unit DBState :=
  if okUser then
    if okIdentity then
      if okProfile then
        .ok { users := u :: db.users
              identities := i :: db.identities
              profiles := p :: db.profiles }
      else .error ()
    else .error ()
  else .error ()

/-!  Service layer error taxonomy and results. -/

/-- Errors the services surface to their callers: `business msg` for the
errors.New / fmt.Errorf user-facing messages, `system` for
commonerrors.ErrSystemError, `serviceBusy` for
commonerrors.ErrServiceBusy. -/
inductive SvcErr
  | business (msg : String)
  | system
  | serviceBusy
  deriving DecidableEq, Repr

/-- vo.TokenPair. -/
structure TokenPair where
  accessToken : TokenString
  refreshToken : TokenString
  deriving DecidableEq, Repr

/-!  authTokenService (src/service/token/token.go). -/

/-- The collaborator state the auth token service touches. -/
structure TokenEnv where
  users : String → Lookup User
  blacklist : Blacklist
  redisCheckOk : Bool
  redisAddOk : Bool

/-- authTokenService.Logout: parses the token as a refresh token; any
parse failure is treated as already-revoked and returns nil; a token
without an expiry claim is skipped with nil; otherwise the JTI is
blacklisted for the remaining lifetime when positive, and a failing
blacklist write is logged but still answered with nil. Returns the
(always-nil) error alongside the resulting blacklist state. -/
def Logout (cfg : JWTConfig) (bl : Blacklist) (redisAddOk : Bool)
    (now : Int) (tokenToRevoke : TokenString) :
    Option SvcErr × Blacklist :=
  match ParseRefreshToken cfg now tokenToRevoke with
  | .error _ => (none, bl)
  | .ok claims =>
    match claims.expiresAt with
    | none => (none, bl)
    | some e =>
      if 0 < e - now then
        match AddJtiToBlacklist redisAddOk bl now claims.jti (e - now) with
        | .ok bl2 => (none, bl2)
        | .error _ => (none, bl)
      else (none, bl)

/-- authTokenService.RefreshToken: parse the refresh token (business
error on failure), check the JTI blacklist (system error if the check
fails, business error if blacklisted), re-read the user by the UserID of
the claims (business error if absent, system error otherwise on
failure), gate on Status = Active, generate a new access token from the
freshly read role/status and a new refresh token, both on the platform
carried by the old claims, then blacklist the old JTI for its remaining
lifetime when positive (a failing write is logged and ignored). Returns
the outcome together with the resulting blacklist state. `newAccessJti`
and `newRefreshJti` stand for the fresh uuids drawn inside the two
generators. -/
def RefreshToken (cfg : JWTConfig) (env : TokenEnv) (now : Int)
    (newAccessJti newRefreshJti : String) (refreshTok : TokenString) :
    Except SvcErr TokenPair × Blacklist :=
  match ParseRefreshToken cfg now refreshTok with
  | .error _ => (.error (.business "无效的刷新令牌"), env.blacklist)
  | .ok claims =>
    match IsJtiBlacklistedCall env.redisCheckOk env.blacklist now claims.jti with
    | .error _ => (.error .system, env.blacklist)
    | .ok isBlacklisted =>
      if isBlacklisted then
        (.error (.business "刷新令牌已失效"), env.blacklist)
      else
        match env.users claims.userID with
        | .notFound => (.error (.business "用户不存在，无法刷新令牌"), env.blacklist)
        | .dbError => (.error .system, env.blacklist)
        | .found user =>
          if user.status ≠ .active then
            (.error (.business "用户状态异常，无法刷新令牌"), env.blacklist)
          else
            (.ok { accessToken :=
                     GenerateAccessToken cfg now newAccessJti
                       user.userID user.userRole user.status claims.platform
                   refreshToken :=
                     GenerateRefreshToken cfg now newRefreshJti
                       user.userID claims.platform },
             match claims.expiresAt with
             | some e =>
               if 0 < e - now then
                 match AddJtiToBlacklist env.redisAddOk env.blacklist now
                     claims.jti (e - now) with
                 | .ok b => b
                 | .error _ => env.blacklist
               else env.blacklist
             | none => env.blacklist)

/-!  Login services (src/service/login/auth/account.go,
src/service/login/oAuth/wechat.go). -/

/-- The collaborator state and oracles of the login services:
the captcha store and its Redis oracles, the database connectivity
oracles for the two lookups, the bcrypt collaborators
(utils.SetPassword as `hash` with success oracle `hashOk`;
utils.CheckPassword as the boolean `checkPassword credential password`),
the WeChat code exchange (wechatClient.GetSession), and the per-insert
success oracles of the registration transaction. -/
structure AuthEnv where
  captcha : CaptchaStore
  captchaGetOk : Bool
  captchaDelOk : Bool
  identityLookupOk : Bool
  userLookupOk : Bool
  hashOk : Bool
  hash : String → String
  checkPassword : String → String → Bool
  wechatSession : String → Except Unit String
  okUser : Bool
  okIdentity : Bool
  okProfile : Bool

/-- accountService.Register: rejects mismatched password/confirmation,
rejects an already-registered account, hashes the password, then creates
User (Role=user, Status=active), UserIdentity (accountPassword, with the
hashed credential) and UserProfile (nickname = account) in one
transaction; any transaction failure surfaces ErrSystemError with the
store rolled back. `newUserID` stands for the fresh uuid. Returns the
outcome (the new user's ID on success) with the resulting store. -/
def accountRegister (env : AuthEnv) (db : DBState)
    (account password confirmPassword newUserID : String) :
    Except SvcErr String × DBState :=
  if password ≠ confirmPassword then
    (.error (.business "密码和确认密码不一致，请检查输入"), db)
  else
    match getIdentityCall env.identityLookupOk db .accountPassword account with
    | .found _ => (.error (.business "账号已存在，请直接登录"), db)
    | .dbError => (.error .system, db)
    | .notFound =>
      if ¬ env.hashOk then (.error .system, db)
      else
        let hashedPassword := env.hash password
        let newUser : User :=
          { userID := newUserID, userRole := .user, status := .active }
        let newIdentity : UserIdentity :=
          { userID := newUserID
            identityType := .accountPassword
            identifier := account
            credential := hashedPassword }
        let initialProfile : UserProfile :=
          { userID := newUserID, nickname := account }
        match registerTransaction env.okUser env.okIdentity env.okProfile
            db newUser newIdentity initialProfile with
        | .error _ => (.error .system, db)
        | .ok db2 => (.ok newUserID, db2)

/-- accountService.Login: looks up the accountPassword identity
(surfacing the same "账号不存在或密码错误" business error for a missing
account as for a wrong password), compares the stored credential with
utils.CheckPassword, re-reads the user row, gates on Status = Active and
issues a token pair. Never writes the store. -/
def accountLogin (cfg : JWTConfig) (env : AuthEnv) (db : DBState)
    (now : Int) (newAccessJti newRefreshJti : String)
    (account password : String) (platform : Platform) :
    Except SvcErr (String × TokenPair) :=
  match getIdentityCall env.identityLookupOk db .accountPassword account with
  | .notFound => .error (.business "账号不存在或密码错误")
  | .dbError => .error .system
  | .found identityCredential =>
    if ¬ env.checkPassword identityCredential.credential password then
      .error (.business "账号不存在或密码错误")
    else
      match getUserCall env.userLookupOk db identityCredential.userID with
      | .notFound => .error (.business "用户数据异常，请联系管理员")
      | .dbError => .error .system
      | .found user =>
        if user.status ≠ .active then
          .error (.business "用户状态异常，无法登录")
        else
          .ok (user.userID,
            { accessToken :=
                GenerateAccessToken cfg now newAccessJti
                  user.userID user.userRole user.status platform
              refreshToken :=
                GenerateRefreshToken cfg now newRefreshJti
                  user.userID platform })

/-- Result of phoneAuthService.LoginOrRegister: the outcome plus the
resulting relational store and captcha store. -/
structure PhoneResult where
  outcome : Except SvcErr (String × TokenPair)
  db : DBState
  captcha : CaptchaStore

/-- The tail of phoneAuthService.LoginOrRegister after the captcha has
been verified and consumed: resolve or atomically create the identity
(User + UserIdentity + UserProfile with nickname = phone), re-read the
user row, gate on Status = Active, issue tokens. -/
def phoneResolveAndIssue (cfg : JWTConfig) (env : AuthEnv) (db : DBState)
    (now : Int) (newAccessJti newRefreshJti newUserID phone : String)
    (platform : Platform) (captcha2 : CaptchaStore) : PhoneResult :=
  let afterResolve : Except SvcErr (String × DBState) :=
    match getIdentityCall env.identityLookupOk db .phone phone with
    | .dbError => .error .system
    | .found identityCredential => .ok (identityCredential.userID, db)
    | .notFound =>
      let newUser : User :=
        { userID := newUserID, userRole := .user, status := .active }
      let newIdentity : UserIdentity :=
        { userID := newUserID
          identityType := .phone
          identifier := phone
          credential := "" }
      let initialProfile : UserProfile :=
        { userID := newUserID, nickname := phone }
      match registerTransaction env.okUser env.okIdentity env.okProfile
          db newUser newIdentity initialProfile with
      | .error _ => .error .system
      | .ok db2 => .ok (newUserID, db2)
  match afterResolve with
  | .error e => { outcome := .error e, db := db, captcha := captcha2 }
  | .ok (userID, db2) =>
    match getUserCall env.userLookupOk db2 userID with
    | .notFound =>
      { outcome := .error .system, db := db2, captcha := captcha2 }
    | .dbError =>
      { outcome := .error .system, db := db2, captcha := captcha2 }
    | .found user =>
      if user.status ≠ .active then
        { outcome := .error (.business "用户状态异常，无法登录")
          db := db2, captcha := captcha2 }
      else
        { outcome := .ok (user.userID,
            { accessToken :=
                GenerateAccessToken cfg now newAccessJti
                  user.userID user.userRole user.status platform
              refreshToken :=
                GenerateRefreshToken cfg now newRefreshJti
                  user.userID platform })
          db := db2, captcha := captcha2 }

/-- phoneAuthService.LoginOrRegister: fetches the stored captcha
(a missing/expired code and a mismatched code both surface the business
error "验证码错误或已过期"), deletes the code immediately on a match
(a failing delete is logged and ignored), then resolves or registers the
phone identity and issues tokens. -/
def phoneLoginOrRegister (cfg : JWTConfig) (env : AuthEnv) (db : DBState)
    (now : Int) (newAccessJti newRefreshJti newUserID : String)
    (phone code : String) (platform : Platform) : PhoneResult :=
  if ¬ env.captchaGetOk then
    { outcome := .error .system, db := db, captcha := env.captcha }
  else
    match env.captcha phone with
    | none =>
      { outcome := .error (.business "验证码错误或已过期")
        db := db, captcha := env.captcha }
    | some storedCode =>
      if storedCode ≠ code then
        { outcome := .error (.business "验证码错误或已过期")
          db := db, captcha := env.captcha }
      else
        let captcha2 :=
          if env.captchaDelOk then deleteCaptcha env.captcha phone
          else env.captcha
        phoneResolveAndIssue cfg env db now newAccessJti newRefreshJti
          newUserID phone platform captcha2

/-- wechatMiniProgramService.LoginOrRegister: exchanges the login code
via wechatClient.GetSession (failure surfaces a business error), then
resolves the wechatMiniProgram identity by openid or atomically creates
User + UserIdentity + UserProfile (empty nickname); a failed lookup or
transaction surfaces ErrServiceBusy; a found identity whose user row is
missing surfaces ErrSystemError; Status is gated before tokens are
issued. Returns the outcome with the resulting store. -/
def wechatLoginOrRegister (cfg : JWTConfig) (env : AuthEnv) (db : DBState)
    (now : Int) (newAccessJti newRefreshJti newUserID code : String)
    (platform : Platform) : Except SvcErr (String × TokenPair) × DBState :=
  match env.wechatSession code with
  | .error _ => (.error (.business "微信登录凭证校验失败，请稍后重试"), db)
  | .ok openid =>
    let afterResolve : Except SvcErr (String × DBState) :=
      match getIdentityCall env.identityLookupOk db .wechatMiniProgram openid with
      | .dbError => .error .serviceBusy
      | .found identityCredential => .ok (identityCredential.userID, db)
      | .notFound =>
        let newUser : User :=
          { userID := newUserID, userRole := .user, status := .active }
        let newIdentity : UserIdentity :=
          { userID := newUserID
            identityType := .wechatMiniProgram
            identifier := openid
            credential := "" }
        let initialProfile : UserProfile :=
          { userID := newUserID, nickname := "" }
        match registerTransaction env.okUser env.okIdentity env.okProfile
            db newUser newIdentity initialProfile with
        | .error _ => .error .serviceBusy
        | .ok db2 => .ok (newUserID, db2)
    match afterResolve with
    | .error e => (.error e, db)
    | .ok (userID, db2) =>
      match getUserCall env.userLookupOk db2 userID with
      | .notFound => (.error .system, db2)
      | .dbError => (.error .serviceBusy, db2)
      | .found user =>
        if user.status ≠ .active then
          (.error (.business "用户状态异常，无法登录"), db2)
        else
          (.ok (user.userID,
            { accessToken :=
                GenerateAccessToken cfg now newAccessJti
                  user.userID user.userRole user.status platform
              refreshToken :=
                GenerateRefreshToken cfg now newRefreshJti
                  user.userID platform }), db2)

/-!  Concrete fixtures used to evaluate the services on closed inputs. -/

/-- A concrete JWT configuration. -/
def cfgW : JWTConfig := ⟨"sk", "rk", "iss"⟩

/-- A concrete, fully healthy collaborator environment for the login
services; `checkPassword` accepts exactly the stored credential. -/
def envW : AuthEnv :=
  { captcha := fun _ => none
    captchaGetOk := true
    captchaDelOk := true
    identityLookupOk := true
    userLookupOk := true
    hashOk := true
    hash := fun s => String.append s "#h"
    checkPassword := fun cred pw => cred == pw
    wechatSession := fun code => .ok (String.append "open-" code)
    okUser := true
    okIdentity := true
    okProfile := true }

/-- The empty relational store. -/
def dbEmpty : DBState := ⟨[], [], []⟩

/-- A store with an active user "u1" (account "alice", phone
"13900001111") and a blacklisted user "u2" (account "bob", phone
"13800001111", openid "open-c2"). -/
def dbW : DBState :=
  { users := [⟨"u1", .user, .active⟩, ⟨"u2", .user, .blacklisted⟩]
    identities :=
      [⟨"u1", .accountPassword, "alice", "pw1"⟩,
       ⟨"u2", .accountPassword, "bob", "pw2"⟩,
       ⟨"u1", .phone, "13900001111", ""⟩,
       ⟨"u2", .phone, "13800001111", ""⟩,
       ⟨"u2", .wechatMiniProgram, "open-c2", ""⟩]
    profiles := [⟨"u1", "alice"⟩, ⟨"u2", "bob"⟩] }

/-- The healthy environment with a captcha "552233" stored for phone
"13800001111". -/
def envC : AuthEnv :=
  { envW with
    captcha := fun p => if p = "13800001111" then some "552233" else none }

/-!  Helper lemmas shared by the claim theorems. -/

/-- A found identity lookup means the row is in the store. -/
theorem getIdentityCall_found_inv (ok : Bool) (db : DBState)
    (ty : IdentityType) (idf : String) (i : UserIdentity)
    (h : getIdentityCall ok db ty idf = .found i) :
    db.getIdentity ty idf = some i := by
  unfold getIdentityCall at h
  split at h
  · split at h <;> simp_all
  · simp_all

/-- A found user lookup means the row is in the store. -/
theorem getUserCall_found_inv (ok : Bool) (db : DBState) (uid : String)
    (u : User) (h : getUserCall ok db uid = .found u) :
    db.getUser uid = some u := by
  unfold getUserCall at h
  split at h
  · split at h <;> simp_all
  · simp_all

/-- A successfully parsed token has an expiry claim strictly in the
future. -/
theorem parseToken_ok_exp (secret issuer : String) (now : Int)
    (tok : TokenString) (c : CustomClaims)
    (h : parseToken secret issuer now tok = .ok c) :
    ∃ e, c.expiresAt = some e ∧ now < e := by
  cases tok with
  | malformed raw => simp [parseToken] at h
  | signed c0 s =>
    simp only [parseToken] at h
    split at h
    · simp at h
    · split at h
      · simp at h
      · rename_i e heq
        split at h
        · simp at h
        · split at h
          · simp at h
          · injection h with h2
            subst h2
            exact ⟨e, heq, by omega⟩

/-- With a healthy connection, a row present in the store is what the
identity lookup returns. -/
theorem getIdentityCall_true_found (db : DBState) (ty : IdentityType)
    (idf : String) (i : UserIdentity) (h : db.getIdentity ty idf = some i) :
    getIdentityCall true db ty idf = .found i := by
  simp [getIdentityCall, h]

/-- With a healthy connection, a row present in the store is what the
user lookup returns. -/
theorem getUserCall_true_found (db : DBState) (uid : String) (u : User)
    (h : db.getUser uid = some u) :
    getUserCall true db uid = .found u := by
  simp [getUserCall, h]

/-- If any of the three inserts fails, the registration transaction
aborts (and the caller's view of the store is unchanged). -/
theorem registerTransaction_fail (okU okI okP : Bool) (db : DBState)
    (u : User) (i : UserIdentity) (p : UserProfile)
    (h : (okU && okI && okP) = false) :
    registerTransaction okU okI okP db u i p = .error () := by
  cases okU <;> cases okI <;> cases okP <;>
    simp_all [registerTransaction]

/-!  Claim theorems. -/

/-- C8: for every jti and every ttl ≤ 0, AddJtiToBlacklist returns nil
without touching the store — the call succeeds with the blacklist
unchanged (so IsJtiBlacklisted afterwards returns exactly what it
returned before), whatever the state of the Redis write oracle. -/
theorem addJti_nonpositive_ttl_noop (writeOk : Bool) (bl : Blacklist)
    (now : Int) (jti : String) (ttl : Int) (h : ttl ≤ 0) :
    AddJtiToBlacklist writeOk bl now jti ttl = .ok bl := by
  unfold AddJtiToBlacklist
  simp [h]

/-- Witness for C8 at a concrete input: a negative ttl is a successful
no-op on the empty blacklist. -/
theorem addJti_nonpositive_ttl_noop_witness :
    AddJtiToBlacklist true Blacklist.empty 5 "jti-1" (-3) =
      .ok Blacklist.empty :=
  addJti_nonpositive_ttl_noop true Blacklist.empty 5 "jti-1" (-3) (by decide)

/-- C9: Logout never returns an error — for every token string
(malformed, expired, missing an expiry claim, or valid) and every
outcome of the blacklist write, the returned error is nil. -/
theorem logout_never_errors (cfg : JWTConfig) (bl : Blacklist)
    (redisAddOk : Bool) (now : Int) (tok : TokenString) :
    (Logout cfg bl redisAddOk now tok).fst = none := by
  unfold Logout
  split
  · rfl
  · split
    · rfl
    · split
      · split <;> rfl
      · rfl

/-- C4: parsing a token produced by the matching generator with the same
configuration, at any instant before its expiry, succeeds and returns
claims whose UserID, Role, Status, Platform equal the generation inputs
(for the refresh token, the Go zero values admin/active in place of the
absent role/status inputs), whose Issuer is the configured issuer, and
whose JTI, IssuedAt and ExpiresAt are the values stamped at generation
time (the fresh jti, now, and now + TTL). -/
theorem parse_after_generate_roundtrip (cfg : JWTConfig)
    (now now2 : Int) (jtiA jtiR userID : String) (role : UserRole)
    (status : UserStatus) (platform : Platform)
    (hA : now2 < now + AccessTokenTTL) (hR : now2 < now + RefreshTokenTTL) :
    ParseAccessToken cfg now2
        (GenerateAccessToken cfg now jtiA userID role status platform) =
      .ok { userID := userID, role := role, status := status,
            platform := platform, issuer := cfg.issuer, issuedAt := now,
            expiresAt := some (now + AccessTokenTTL), jti := jtiA } ∧
    ParseRefreshToken cfg now2
        (GenerateRefreshToken cfg now jtiR userID platform) =
      .ok { userID := userID, role := .admin, status := .active,
            platform := platform, issuer := cfg.issuer, issuedAt := now,
            expiresAt := some (now + RefreshTokenTTL), jti := jtiR } := by
  constructor
  · unfold ParseAccessToken GenerateAccessToken parseToken
    simp [not_le.mpr hA]
  · unfold ParseRefreshToken GenerateRefreshToken parseToken
    simp [not_le.mpr hR]

/-- Witness for C4: concrete round trip at issuance instant 0, parsed at
instant 10. -/
theorem parse_after_generate_roundtrip_witness :
    ParseAccessToken ⟨"sk", "rk", "user-hub"⟩ 10
        (GenerateAccessToken ⟨"sk", "rk", "user-hub"⟩ 0 "a1" "u1"
          .user .active .web) =
      .ok { userID := "u1", role := .user, status := .active,
            platform := .web, issuer := "user-hub", issuedAt := 0,
            expiresAt := some (0 + AccessTokenTTL), jti := "a1" } ∧
    ParseRefreshToken ⟨"sk", "rk", "user-hub"⟩ 10
        (GenerateRefreshToken ⟨"sk", "rk", "user-hub"⟩ 0 "r1" "u1" .web) =
      .ok { userID := "u1", role := .admin, status := .active,
            platform := .web, issuer := "user-hub", issuedAt := 0,
            expiresAt := some (0 + RefreshTokenTTL), jti := "r1" } :=
  parse_after_generate_roundtrip ⟨"sk", "rk", "user-hub"⟩ 0 10 "a1" "r1"
    "u1" .user .active .web (by decide) (by decide)

/-- A well-formed token signed with the right secret, carrying the right
issuer and an expiry in the future, parses back to its claims. -/
theorem parseToken_valid (secret issuer : String) (now e : Int)
    (c : CustomClaims) (hiss : c.issuer = issuer)
    (hexp : c.expiresAt = some e) (hnow : now < e) :
    parseToken secret issuer now (.signed c secret) = .ok c := by
  simp [parseToken, hexp, hiss, not_le.mpr hnow]

/-- C10 counterexample: the claim's clause that parsing a refresh token
never yields the issuance-time Role/Status is false. The Go zero value
of Role is RoleAdmin, so the refresh token generated at login for the
active admin user "u1" parses back to role/status values equal to that
user's issuance-time role and status. -/
theorem refresh_token_zero_role_collides_counterexample :
    ParseRefreshToken cfgW 10
        (GenerateRefreshToken cfgW 0 "jR" "u1" .web) =
      .ok { userID := "u1",
            role := (⟨"u1", UserRole.admin, UserStatus.active⟩ :
              User).userRole,
            status := (⟨"u1", UserRole.admin, UserStatus.active⟩ :
              User).status,
            platform := .web, issuer := "iss", issuedAt := 0,
            expiresAt := some (0 + RefreshTokenTTL), jti := "jR" } :=
  parseToken_valid "rk" "iss" 10 (0 + RefreshTokenTTL) _ rfl rfl
    (by decide)

/-- C10 (amended): GenerateRefreshToken never embeds the user's role or
status: its claims carry the Go zero values, which in go-common's
numbering are RoleAdmin and StatusActive — fixed constants independent
of the user, coinciding with the issuance-time Role/Status exactly when
the user was an active admin; and a successful RefreshToken builds the
new access token exclusively from the freshly read user row's role and
status, propagating only the platform from the old token's claims. -/
theorem refresh_token_omits_role_status (cfg : JWTConfig) (now : Int)
    (jti userID : String) (platform : Platform) :
    (GenerateRefreshToken cfg now jti userID platform =
      TokenString.signed
        { userID := userID, role := .admin, status := .active,
          platform := platform, issuer := cfg.issuer, issuedAt := now,
          expiresAt := some (now + RefreshTokenTTL), jti := jti }
        cfg.refreshSecret) ∧
    (∀ (now2 : Int) (c : CustomClaims),
      ParseRefreshToken cfg now2
          (GenerateRefreshToken cfg now jti userID platform) = .ok c →
      c.role = .admin ∧ c.status = .active) ∧
    (∀ (env : TokenEnv) (jA jR : String) (tok : TokenString)
        (c : CustomClaims) (u : User),
      ParseRefreshToken cfg now tok = .ok c →
      env.redisCheckOk = true →
      IsJtiBlacklisted env.blacklist now c.jti = false →
      env.users c.userID = .found u →
      u.status = .active →
      (RefreshToken cfg env now jA jR tok).fst =
        .ok { accessToken :=
                GenerateAccessToken cfg now jA
                  u.userID u.userRole u.status c.platform
              refreshToken :=
                GenerateRefreshToken cfg now jR u.userID c.platform }) := by
  refine ⟨rfl, ?_, ?_⟩
  · intro now2 c h
    simp only [ParseRefreshToken, GenerateRefreshToken, parseToken] at h
    split at h
    · simp at h
    · split at h
      · simp at h
      · split at h
        · simp at h
        · injection h with h2
          rw [← h2]
          exact ⟨rfl, rfl⟩
  · intro env jA jR tok c u hparse hcheck hbl huser hstatus
    simp only [RefreshToken, ParseRefreshToken] at *
    rw [hparse]
    simp only [IsJtiBlacklistedCall, hcheck, if_true, hbl, huser, hstatus]
    simp

/-- Witness for the amended C10 at a concrete refresh flow: the old
refresh token carries the constant zero-value role (admin) though the
stored row says (user, active), and the freshly issued access token
carries the stored row's role/status while only the platform survives
from the old claims. -/
theorem refresh_token_omits_role_status_witness :
    (GenerateRefreshToken ⟨"sk", "rk", "iss"⟩ 0 "j0" "u1" .app =
      TokenString.signed
        { userID := "u1", role := .admin, status := .active,
          platform := .app, issuer := "iss", issuedAt := 0,
          expiresAt := some (0 + RefreshTokenTTL), jti := "j0" }
        "rk") ∧
    ((RefreshToken ⟨"sk", "rk", "iss"⟩
        { users := fun s => if s = "u1" then
            .found { userID := "u1", userRole := .user, status := .active }
          else .notFound
          blacklist := Blacklist.empty
          redisCheckOk := true
          redisAddOk := true } 0 "jA" "jR"
        (.signed
          { userID := "u1", role := .admin, status := .active,
            platform := .app, issuer := "iss", issuedAt := -10,
            expiresAt := some 100, jti := "jOld" } "rk")).fst =
      .ok { accessToken :=
              GenerateAccessToken ⟨"sk", "rk", "iss"⟩ 0 "jA"
                "u1" .user .active .app
            refreshToken :=
              GenerateRefreshToken ⟨"sk", "rk", "iss"⟩ 0 "jR" "u1" .app }) := by
  refine ⟨(refresh_token_omits_role_status ⟨"sk", "rk", "iss"⟩ 0 "j0" "u1" .app).1, ?_⟩
  exact (refresh_token_omits_role_status ⟨"sk", "rk", "iss"⟩ 0 "j0" "u1" .app).2.2
    _ "jA" "jR" _ _ { userID := "u1", userRole := .user, status := .active }
    (parseToken_valid "rk" "iss" 0 100 _ rfl rfl (by decide)) rfl rfl rfl rfl

/-- C6: in account-password login, the business error for a missing
account and the business error for a wrong password are the very same
value, "账号不存在或密码错误" — the caller cannot distinguish the two
cases from the result. -/
theorem login_error_indistinguishable (cfg : JWTConfig) (env : AuthEnv)
    (db : DBState) (now : Int) (jA jR account password : String)
    (platform : Platform) :
    (getIdentityCall env.identityLookupOk db .accountPassword account =
        .notFound →
      accountLogin cfg env db now jA jR account password platform =
        .error (.business "账号不存在或密码错误")) ∧
    (∀ cred,
      getIdentityCall env.identityLookupOk db .accountPassword account =
        .found cred →
      env.checkPassword cred.credential password = false →
      accountLogin cfg env db now jA jR account password platform =
        .error (.business "账号不存在或密码错误")) := by
  constructor
  · intro h
    simp only [accountLogin]
    rw [h]
  · intro cred h hpw
    simp only [accountLogin]
    rw [h]
    simp [hpw]

/-- Witness for C6: logging in as the unknown account "carol" and
logging in as the existing account "alice" with a wrong password yield
the identical business error. -/
theorem login_error_indistinguishable_witness :
    (accountLogin cfgW envW dbW 0 "jA" "jR" "carol" "whatever" .web =
      .error (.business "账号不存在或密码错误")) ∧
    (accountLogin cfgW envW dbW 0 "jA" "jR" "alice" "wrong" .web =
      .error (.business "账号不存在或密码错误")) :=
  ⟨(login_error_indistinguishable cfgW envW dbW 0 "jA" "jR" "carol"
      "whatever" .web).1 (by decide),
   (login_error_indistinguishable cfgW envW dbW 0 "jA" "jR" "alice"
      "wrong" .web).2 ⟨"u1", .accountPassword, "alice", "pw1"⟩
      (by decide) (by decide)⟩

/-- C5: after Logout on a valid, unexpired refresh token has completed
with a successful blacklist write, every later RefreshToken call with
the same token before its expiry fails with the blacklisted
authentication error; and once AddJtiToBlacklist(jti, ttl > 0) has
completed, IsJtiBlacklisted(jti) is true at every instant before the
ttl elapses and false afterwards. -/
theorem logout_then_refresh_rejected (cfg : JWTConfig) (bl : Blacklist)
    (now e : Int) (c : CustomClaims)
    (hiss : c.issuer = cfg.issuer) (hexp : c.expiresAt = some e)
    (hnow : now < e) :
    (∀ (env : TokenEnv) (t2 : Int) (jA jR : String),
      t2 < e →
      env.blacklist =
        (Logout cfg bl true now (.signed c cfg.refreshSecret)).snd →
      env.redisCheckOk = true →
      (RefreshToken cfg env t2 jA jR (.signed c cfg.refreshSecret)).fst =
        .error (.business "刷新令牌已失效")) ∧
    (∀ (bl0 blAfter : Blacklist) (t ttl : Int) (jti : String),
      0 < ttl →
      AddJtiToBlacklist true bl0 t jti ttl = .ok blAfter →
      (∀ t2, t2 < t + ttl → IsJtiBlacklisted blAfter t2 jti = true) ∧
      (∀ t2, t + ttl ≤ t2 → IsJtiBlacklisted blAfter t2 jti = false)) := by
  constructor
  · intro env t2 jA jR ht2 hbl hcheck
    have hparse2 : ParseRefreshToken cfg t2 (.signed c cfg.refreshSecret) =
        .ok c := parseToken_valid _ _ _ e c hiss hexp ht2
    have hparse1 : ParseRefreshToken cfg now (.signed c cfg.refreshSecret) =
        .ok c := parseToken_valid _ _ _ e c hiss hexp hnow
    have hlog : (Logout cfg bl true now (.signed c cfg.refreshSecret)).snd =
        fun j => if j = c.jti then some e else bl j := by
      simp only [Logout, hparse1, hexp]
      rw [if_pos (by omega : (0 : Int) < e - now)]
      simp [AddJtiToBlacklist, (by omega : ¬ (e - now ≤ (0 : Int)))]
      rw [if_neg (not_le.mpr hnow)]
    have hblv : IsJtiBlacklisted env.blacklist t2 c.jti = true := by
      rw [hbl, hlog]
      simp [IsJtiBlacklisted]
      omega
    simp only [RefreshToken, hparse2, IsJtiBlacklistedCall, hcheck,
      if_true, hblv]
  · intro bl0 blAfter t ttl jti h0 hadd
    unfold AddJtiToBlacklist at hadd
    rw [if_neg (by omega : ¬ ttl ≤ (0 : Int)), if_pos rfl] at hadd
    injection hadd with h2
    rw [← h2]
    constructor <;> intro t2 h
    · simp [IsJtiBlacklisted]
      omega
    · simp [IsJtiBlacklisted]
      omega

/-- Witness for C5: logout of a concrete refresh token at instant 0,
then refresh at instant 50 (expiry 100) is rejected as blacklisted; the
blacklist entry added at instant 0 with ttl 100 answers true at 50 and
false at 100. -/
theorem logout_then_refresh_rejected_witness :
    ((RefreshToken ⟨"sk", "rk", "iss"⟩
        { users := fun _ =>
            .found { userID := "u1", userRole := .user, status := .active }
          blacklist :=
            (Logout ⟨"sk", "rk", "iss"⟩ Blacklist.empty true 0
              (.signed
                { userID := "u1", role := .guest, status := .active,
                  platform := .web, issuer := "iss", issuedAt := 0,
                  expiresAt := some 100, jti := "jOld" } "rk")).snd
          redisCheckOk := true
          redisAddOk := true } 50 "jA" "jR"
        (.signed
          { userID := "u1", role := .guest, status := .active,
            platform := .web, issuer := "iss", issuedAt := 0,
            expiresAt := some 100, jti := "jOld" } "rk")).fst =
      .error (.business "刷新令牌已失效")) ∧
    (∀ blAfter : Blacklist,
      AddJtiToBlacklist true Blacklist.empty 0 "j9" 100 = .ok blAfter →
      IsJtiBlacklisted blAfter 50 "j9" = true ∧
      IsJtiBlacklisted blAfter 100 "j9" = false) := by
  constructor
  · exact (logout_then_refresh_rejected ⟨"sk", "rk", "iss"⟩
      Blacklist.empty 0 100
      { userID := "u1", role := .guest, status := .active,
        platform := .web, issuer := "iss", issuedAt := 0,
        expiresAt := some 100, jti := "jOld" }
      rfl rfl (by decide)).1 _ 50 "jA" "jR" (by decide) rfl rfl
  · intro blAfter hadd
    have h := (logout_then_refresh_rejected ⟨"sk", "rk", "iss"⟩
      Blacklist.empty 0 100
      { userID := "u1", role := .guest, status := .active,
        platform := .web, issuer := "iss", issuedAt := 0,
        expiresAt := some 100, jti := "jOld" }
      rfl rfl (by decide)).2 Blacklist.empty blAfter 0 100 "j9"
      (by decide) hadd
    exact ⟨h.1 50 (by decide), h.2 100 (by decide)⟩

/-- C1: RefreshToken proceeds in order: a token that fails to parse is
rejected with the invalid-refresh-token business error; a parsed token
whose JTI is blacklisted is rejected with the revoked-token
authentication error before any user read matters; otherwise the user's
current role/status are re-read and a non-Active status is rejected; on
success the new access token is issued from the freshly read role and
status (platform from the old claims) and the old refresh JTI is then
blacklisted until the old token's own expiry instant `e` — its
remaining lifetime `e - now`, not the full RefreshTokenTTL. -/
theorem refresh_rotation_flow (cfg : JWTConfig) (env : TokenEnv)
    (now : Int) (jA jR : String) (tok : TokenString) :
    ((∃ err, ParseRefreshToken cfg now tok = .error err) →
      RefreshToken cfg env now jA jR tok =
        (.error (.business "无效的刷新令牌"), env.blacklist)) ∧
    (∀ c, ParseRefreshToken cfg now tok = .ok c →
      env.redisCheckOk = true →
      IsJtiBlacklisted env.blacklist now c.jti = true →
      RefreshToken cfg env now jA jR tok =
        (.error (.business "刷新令牌已失效"), env.blacklist)) ∧
    (∀ c u, ParseRefreshToken cfg now tok = .ok c →
      env.redisCheckOk = true →
      IsJtiBlacklisted env.blacklist now c.jti = false →
      env.users c.userID = .found u →
      u.status ≠ .active →
      RefreshToken cfg env now jA jR tok =
        (.error (.business "用户状态异常，无法刷新令牌"), env.blacklist)) ∧
    (∀ c u e, ParseRefreshToken cfg now tok = .ok c →
      env.redisCheckOk = true →
      IsJtiBlacklisted env.blacklist now c.jti = false →
      env.users c.userID = .found u →
      u.status = .active →
      c.expiresAt = some e →
      env.redisAddOk = true →
      RefreshToken cfg env now jA jR tok =
        (.ok { accessToken :=
                 GenerateAccessToken cfg now jA
                   u.userID u.userRole u.status c.platform
               refreshToken :=
                 GenerateRefreshToken cfg now jR u.userID c.platform },
         fun j => if j = c.jti then some e else env.blacklist j)) := by
  refine ⟨?_, ?_, ?_, ?_⟩
  · intro ⟨err, herr⟩
    simp only [RefreshToken, herr]
  · intro c hparse hcheck hbl
    simp only [RefreshToken, hparse, IsJtiBlacklistedCall, hcheck,
      if_true, hbl]
  · intro c u hparse hcheck hbl huser hstatus
    simp only [RefreshToken, hparse, IsJtiBlacklistedCall, hcheck,
      if_true, hbl, huser]
    simp [hstatus]
  · intro c u e hparse hcheck hbl huser hstatus hexp haddok
    obtain ⟨e2, hexp2, hlt⟩ :=
      parseToken_ok_exp cfg.refreshSecret cfg.issuer now tok c hparse
    rw [hexp] at hexp2
    injection hexp2 with he2
    subst he2
    simp only [RefreshToken, hparse, IsJtiBlacklistedCall, hcheck,
      if_true, hbl, huser, hstatus]
    simp only [hexp, ne_eq, not_true_eq_false, if_false, ite_false]
    rw [if_pos (by omega : (0 : Int) < e - now)]
    unfold AddJtiToBlacklist
    rw [if_neg (by omega : ¬ (e - now ≤ (0 : Int))), haddok, if_pos rfl]
    have harith : now + (e - now) = e := by omega
    simp [harith]

/-- Witness for C1 at a concrete successful rotation: user "u1" is
active, the old token expires at 100, rotation at instant 40 succeeds
and blacklists "jOld" until 100 (remaining lifetime 60, not the
864000-second refresh TTL). -/
theorem refresh_rotation_flow_witness :
    RefreshToken ⟨"sk", "rk", "iss"⟩
        { users := fun _ =>
            .found { userID := "u1", userRole := .user, status := .active }
          blacklist := Blacklist.empty
          redisCheckOk := true
          redisAddOk := true } 40 "jA" "jR"
        (.signed
          { userID := "u1", role := .guest, status := .active,
            platform := .miniProgram, issuer := "iss", issuedAt := 0,
            expiresAt := some 100, jti := "jOld" } "rk") =
      (.ok { accessToken :=
               GenerateAccessToken ⟨"sk", "rk", "iss"⟩ 40 "jA"
                 "u1" .user .active .miniProgram
             refreshToken :=
               GenerateRefreshToken ⟨"sk", "rk", "iss"⟩ 40 "jR"
                 "u1" .miniProgram },
       fun j => if j = "jOld" then some 100 else Blacklist.empty j) :=
  (refresh_rotation_flow ⟨"sk", "rk", "iss"⟩
      { users := fun _ =>
          .found { userID := "u1", userRole := .user, status := .active }
        blacklist := Blacklist.empty
        redisCheckOk := true
        redisAddOk := true } 40 "jA" "jR"
      (.signed
        { userID := "u1", role := .guest, status := .active,
          platform := .miniProgram, issuer := "iss", issuedAt := 0,
          expiresAt := some 100, jti := "jOld" } "rk")).2.2.2
    _ { userID := "u1", userRole := .user, status := .active } 100
    (parseToken_valid "rk" "iss" 40 100 _ rfl rfl (by decide))
    rfl rfl rfl rfl rfl rfl

/-- C2: a user whose stored status is not Active can neither rotate a
refresh token nor complete any initial login — account-password login,
phone login-or-register, or WeChat login-or-register — whatever the
presented credential: every such call returns an error and never a
token pair. -/
theorem blacklisted_user_cannot_authenticate (cfg : JWTConfig)
    (uid : String) (u : User) (hstatus : u.status ≠ .active) :
    (∀ (env : TokenEnv) (now : Int) (jA jR : String) (tok : TokenString),
      env.users uid = .found u →
      (∀ c, ParseRefreshToken cfg now tok = .ok c → c.userID = uid) →
      ∀ p, (RefreshToken cfg env now jA jR tok).fst ≠ .ok p) ∧
    (∀ (env : AuthEnv) (db : DBState) (now : Int)
        (jA jR account password : String) (platform : Platform)
        (ident : UserIdentity),
      db.getIdentity .accountPassword account = some ident →
      ident.userID = uid →
      db.getUser uid = some u →
      ∀ r, accountLogin cfg env db now jA jR account password platform ≠
        .ok r) ∧
    (∀ (env : AuthEnv) (db : DBState) (now : Int)
        (jA jR nuid phone code : String) (platform : Platform)
        (ident : UserIdentity),
      db.getIdentity .phone phone = some ident →
      ident.userID = uid →
      db.getUser uid = some u →
      ∀ r, (phoneLoginOrRegister cfg env db now jA jR nuid phone code
        platform).outcome ≠ .ok r) ∧
    (∀ (env : AuthEnv) (db : DBState) (now : Int)
        (jA jR nuid code openid : String) (platform : Platform)
        (ident : UserIdentity),
      env.wechatSession code = .ok openid →
      db.getIdentity .wechatMiniProgram openid = some ident →
      ident.userID = uid →
      db.getUser uid = some u →
      ∀ r, (wechatLoginOrRegister cfg env db now jA jR nuid code
        platform).fst ≠ .ok r) := by
  refine ⟨?_, ?_, ?_, ?_⟩
  · intro env now jA jR tok huser hclaims p
    simp only [RefreshToken]
    rcases hp : ParseRefreshToken cfg now tok with err | c
    · simp
    · have huid : c.userID = uid := hclaims c hp
      simp only [IsJtiBlacklistedCall]
      cases hco : env.redisCheckOk
      · simp
      · simp only [if_pos rfl]
        cases hbv : IsJtiBlacklisted env.blacklist now c.jti
        · simp only [Bool.false_eq_true, if_false, huid, huser]
          rw [if_pos hstatus]
          simp
        · simp
  · intro env db now jA jR account password platform ident hident huid
      huser r
    simp only [accountLogin]
    cases hio : env.identityLookupOk
    · simp [getIdentityCall, hio]
    · simp only [getIdentityCall_true_found db .accountPassword account
        ident hident]
      split
      · simp
      · simp only [huid]
        cases hul : env.userLookupOk
        · simp [getUserCall, hul]
        · simp only [getUserCall_true_found db uid u huser]
          rw [if_pos hstatus]
          simp
  · intro env db now jA jR nuid phone code platform ident hident huid
      huser r
    simp only [phoneLoginOrRegister]
    split
    · simp
    split
    · simp
    split
    · simp
    simp only [phoneResolveAndIssue]
    cases hio : env.identityLookupOk
    · simp [getIdentityCall, hio]
    · simp only [getIdentityCall_true_found db .phone phone ident hident]
      simp only [huid]
      cases hul : env.userLookupOk
      · simp [getUserCall, hul]
      · simp only [getUserCall_true_found db uid u huser]
        rw [if_pos hstatus]
        simp
  · intro env db now jA jR nuid code openid platform ident hsess hident
      huid huser r
    simp only [wechatLoginOrRegister, hsess]
    cases hio : env.identityLookupOk
    · simp [getIdentityCall, hio]
    · simp only [getIdentityCall_true_found db .wechatMiniProgram openid
        ident hident]
      simp only [huid]
      cases hul : env.userLookupOk
      · simp [getUserCall, hul]
      · simp only [getUserCall_true_found db uid u huser]
        rw [if_pos hstatus]
        simp

/-- Witness for C2: the blacklisted user "u2" of the concrete store can
neither rotate a concrete valid refresh token, nor log in with the
correct password "pw2", nor via phone, nor via WeChat. -/
theorem blacklisted_user_cannot_authenticate_witness :
    ((RefreshToken cfgW
        { users := fun s =>
            if s = "u2" then .found ⟨"u2", .user, .blacklisted⟩
            else .notFound
          blacklist := Blacklist.empty
          redisCheckOk := true
          redisAddOk := true } 0 "jA" "jR"
        (.signed
          { userID := "u2", role := .guest, status := .active,
            platform := .web, issuer := "iss", issuedAt := 0,
            expiresAt := some 100, jti := "j2" } "rk")).fst ≠
      .ok { accessToken := .malformed "", refreshToken := .malformed "" }) ∧
    (accountLogin cfgW envW dbW 0 "jA" "jR" "bob" "pw2" .web ≠
      .ok ("u2",
        { accessToken := .malformed "", refreshToken := .malformed "" })) ∧
    ((phoneLoginOrRegister cfgW envW dbW 0 "jA" "jR" "n1" "13800001111"
        "552233" .web).outcome ≠
      .ok ("u2",
        { accessToken := .malformed "", refreshToken := .malformed "" })) ∧
    ((wechatLoginOrRegister cfgW envW dbW 0 "jA" "jR" "n1" "c2"
        .web).fst ≠
      .ok ("u2",
        { accessToken := .malformed "", refreshToken := .malformed "" })) := by
  have h := blacklisted_user_cannot_authenticate cfgW "u2"
    ⟨"u2", .user, .blacklisted⟩ (by decide)
  refine ⟨?_, ?_, ?_, ?_⟩
  · refine h.1 _ 0 "jA" "jR" _ (by decide) ?_ _
    intro c hc
    have he : ParseRefreshToken cfgW 0
        (.signed
          { userID := "u2", role := .guest, status := .active,
            platform := .web, issuer := "iss", issuedAt := 0,
            expiresAt := some 100, jti := "j2" } "rk") =
        .ok
          { userID := "u2", role := .guest, status := .active,
            platform := .web, issuer := "iss", issuedAt := 0,
            expiresAt := some 100, jti := "j2" } :=
      parseToken_valid "rk" "iss" 0 100 _ rfl rfl (by decide)
    rw [he] at hc
    injection hc with h2
    rw [← h2]
  · exact h.2.1 envW dbW 0 "jA" "jR" "bob" "pw2" .web
      ⟨"u2", .accountPassword, "bob", "pw2"⟩ (by decide) rfl (by decide) _
  · exact h.2.2.1 envW dbW 0 "jA" "jR" "n1" "13800001111" "552233" .web
      ⟨"u2", .phone, "13800001111", ""⟩ (by decide) rfl (by decide) _
  · exact h.2.2.2 envW dbW 0 "jA" "jR" "n1" "c2" "open-c2" .web
      ⟨"u2", .wechatMiniProgram, "open-c2", ""⟩ rfl (by decide) rfl
      (by decide) _

/-- Whatever happens after captcha verification, the captcha store the
phone flow hands back is the one produced by the deletion step. -/
theorem phoneResolveAndIssue_captcha (cfg : JWTConfig) (env : AuthEnv)
    (db : DBState) (now : Int) (jA jR nuid phone : String)
    (platform : Platform) (captcha2 : CaptchaStore) :
    (phoneResolveAndIssue cfg env db now jA jR nuid phone platform
      captcha2).captcha = captcha2 := by
  simp only [phoneResolveAndIssue]
  repeat' split
  all_goals rfl

/-- C7: in phone login-or-register, a missing/expired stored code and a
mismatched submitted code surface the same business error
"验证码错误或已过期" with the captcha store untouched; on an exact match
the stored code is deleted immediately, so a second submission of the
same code against the resulting store fails with that same error. -/
theorem captcha_single_use (cfg : JWTConfig) (env : AuthEnv)
    (db : DBState) (now : Int) (jA jR nuid phone code : String)
    (platform : Platform) :
    (env.captchaGetOk = true → env.captcha phone = none →
      (phoneLoginOrRegister cfg env db now jA jR nuid phone code
          platform).outcome = .error (.business "验证码错误或已过期") ∧
      (phoneLoginOrRegister cfg env db now jA jR nuid phone code
          platform).captcha = env.captcha) ∧
    (∀ storedCode, env.captchaGetOk = true →
      env.captcha phone = some storedCode → storedCode ≠ code →
      (phoneLoginOrRegister cfg env db now jA jR nuid phone code
          platform).outcome = .error (.business "验证码错误或已过期") ∧
      (phoneLoginOrRegister cfg env db now jA jR nuid phone code
          platform).captcha = env.captcha) ∧
    (env.captchaGetOk = true → env.captcha phone = some code →
      env.captchaDelOk = true →
      (phoneLoginOrRegister cfg env db now jA jR nuid phone code
          platform).captcha phone = none ∧
      (∀ (env2 : AuthEnv) (db2 : DBState) (now2 : Int)
          (jA2 jR2 nuid2 : String) (platform2 : Platform),
        env2.captchaGetOk = true →
        env2.captcha = (phoneLoginOrRegister cfg env db now jA jR nuid
          phone code platform).captcha →
        (phoneLoginOrRegister cfg env2 db2 now2 jA2 jR2 nuid2 phone code
            platform2).outcome = .error (.business "验证码错误或已过期"))) := by
  refine ⟨?_, ?_, ?_⟩
  · intro hget hnone
    constructor <;> simp [phoneLoginOrRegister, hget, hnone]
  · intro storedCode hget hsome hne
    constructor <;> simp [phoneLoginOrRegister, hget, hsome, hne]
  · intro hget hsome hdel
    have hres : (phoneLoginOrRegister cfg env db now jA jR nuid phone
        code platform).captcha = deleteCaptcha env.captcha phone := by
      simp only [phoneLoginOrRegister, hget, hsome, hdel]
      simp [phoneResolveAndIssue_captcha]
    have hgone : (phoneLoginOrRegister cfg env db now jA jR nuid phone
        code platform).captcha phone = none := by
      rw [hres]
      simp [deleteCaptcha]
    refine ⟨hgone, ?_⟩
    intro env2 db2 now2 jA2 jR2 nuid2 platform2 hget2 heq2
    have h2 : env2.captcha phone = none := by rw [heq2]; exact hgone
    simp [phoneLoginOrRegister, hget2, h2]

/-- Witness for C7 on the concrete store: no code stored, wrong code,
and code reuse after a successful match all yield the
"验证码错误或已过期" business error; the match deletes the stored
code. -/
theorem captcha_single_use_witness :
    ((phoneLoginOrRegister cfgW envW dbEmpty 0 "jA" "jR" "n1"
        "13800001111" "552233" .app).outcome =
      .error (.business "验证码错误或已过期")) ∧
    ((phoneLoginOrRegister cfgW envC dbEmpty 0 "jA" "jR" "n1"
        "13800001111" "000000" .app).outcome =
      .error (.business "验证码错误或已过期")) ∧
    ((phoneLoginOrRegister cfgW envC dbEmpty 0 "jA" "jR" "n1"
        "13800001111" "552233" .app).captcha "13800001111" = none) ∧
    ((phoneLoginOrRegister cfgW
        { envC with
          captcha := (phoneLoginOrRegister cfgW envC dbEmpty 0 "jA" "jR"
            "n1" "13800001111" "552233" .app).captcha }
        dbEmpty 1 "jA2" "jR2" "n2" "13800001111" "552233" .app).outcome =
      .error (.business "验证码错误或已过期")) := by
  refine ⟨?_, ?_, ?_, ?_⟩
  · exact ((captcha_single_use cfgW envW dbEmpty 0 "jA" "jR" "n1"
      "13800001111" "552233" .app).1 rfl rfl).1
  · exact ((captcha_single_use cfgW envC dbEmpty 0 "jA" "jR" "n1"
      "13800001111" "000000" .app).2.1 "552233" rfl (by decide)
      (by decide)).1
  · exact ((captcha_single_use cfgW envC dbEmpty 0 "jA" "jR" "n1"
      "13800001111" "552233" .app).2.2 rfl (by decide) rfl).1
  · exact ((captcha_single_use cfgW envC dbEmpty 0 "jA" "jR" "n1"
      "13800001111" "552233" .app).2.2 rfl (by decide) rfl).2
      _ dbEmpty 1 "jA2" "jR2" "n2" .app rfl rfl

/-- C3: first-contact registration creates User, UserIdentity and
UserProfile atomically. If any of the three inserts fails, the
transaction rolls back, the store the caller sees is exactly the
original one — no row of any of the three entities persists — and the
caller receives the single opaque system-level error of that service
(ErrSystemError for account and phone registration, ErrServiceBusy for
WeChat registration); when all three inserts succeed, all three rows
are committed together. -/
theorem registration_atomic (env : AuthEnv) (db : DBState) :
    (∀ account password nuid,
      db.getIdentity .accountPassword account = none →
      env.identityLookupOk = true → env.hashOk = true →
      (env.okUser && env.okIdentity && env.okProfile) = false →
      accountRegister env db account password password nuid =
        (.error .system, db)) ∧
    (∀ (cfg : JWTConfig) (now : Int) (jA jR nuid phone code : String)
        (platform : Platform),
      env.captchaGetOk = true → env.captcha phone = some code →
      db.getIdentity .phone phone = none →
      env.identityLookupOk = true →
      (env.okUser && env.okIdentity && env.okProfile) = false →
      (phoneLoginOrRegister cfg env db now jA jR nuid phone code
          platform).outcome = .error .system ∧
      (phoneLoginOrRegister cfg env db now jA jR nuid phone code
          platform).db = db) ∧
    (∀ (cfg : JWTConfig) (now : Int) (jA jR nuid code openid : String)
        (platform : Platform),
      env.wechatSession code = .ok openid →
      db.getIdentity .wechatMiniProgram openid = none →
      env.identityLookupOk = true →
      (env.okUser && env.okIdentity && env.okProfile) = false →
      wechatLoginOrRegister cfg env db now jA jR nuid code platform =
        (.error .serviceBusy, db)) ∧
    (∀ account password nuid,
      db.getIdentity .accountPassword account = none →
      env.identityLookupOk = true → env.hashOk = true →
      env.okUser = true → env.okIdentity = true → env.okProfile = true →
      accountRegister env db account password password nuid =
        (.ok nuid,
         { users := ⟨nuid, .user, .active⟩ :: db.users
           identities :=
             ⟨nuid, .accountPassword, account, env.hash password⟩ ::
               db.identities
           profiles := ⟨nuid, account⟩ :: db.profiles })) ∧
    (∀ (cfg : JWTConfig) (now : Int) (jA jR nuid phone code : String)
        (platform : Platform),
      env.captchaGetOk = true → env.captcha phone = some code →
      db.getIdentity .phone phone = none →
      env.identityLookupOk = true →
      env.okUser = true → env.okIdentity = true → env.okProfile = true →
      (phoneLoginOrRegister cfg env db now jA jR nuid phone code
          platform).db =
        { users := ⟨nuid, .user, .active⟩ :: db.users
          identities := ⟨nuid, .phone, phone, ""⟩ :: db.identities
          profiles := ⟨nuid, phone⟩ :: db.profiles }) := by
  refine ⟨?_, ?_, ?_, ?_, ?_⟩
  · intro account password nuid hid hio hhash hfail
    simp [accountRegister, getIdentityCall, hio, hid, hhash,
      registerTransaction_fail, hfail]
  · intro cfg now jA jR nuid phone code platform hget hsome hid hio hfail
    constructor <;>
      simp [phoneLoginOrRegister, hget, hsome, phoneResolveAndIssue,
        getIdentityCall, hio, hid, registerTransaction_fail, hfail]
  · intro cfg now jA jR nuid code openid platform hsess hid hio hfail
    simp [wechatLoginOrRegister, hsess, getIdentityCall, hio, hid,
      registerTransaction_fail, hfail]
  · intro account password nuid hid hio hhash hU hI hP
    simp [accountRegister, getIdentityCall, hio, hid, hhash,
      registerTransaction, hU, hI, hP]
  · intro cfg now jA jR nuid phone code platform hget hsome hid hio hU hI hP
    simp only [phoneLoginOrRegister, hget, hsome]
    simp only [not_true, if_false, ite_not]
    simp [phoneResolveAndIssue, getIdentityCall, hio, hid,
      registerTransaction, hU, hI, hP]
    repeat' split
    all_goals rfl

/-- Witness for C3: with a failing profile insert the account
registration surfaces ErrSystemError and leaves the empty store empty;
a failing identity insert leaves the phone flow's store empty; a
failing user insert makes the WeChat flow surface ErrServiceBusy with
the store unchanged; and with all inserts healthy account registration
commits exactly the three rows. -/
theorem registration_atomic_witness :
    (accountRegister { envW with okProfile := false } dbEmpty "alice"
        "pw" "pw" "n1" = (.error .system, dbEmpty)) ∧
    ((phoneLoginOrRegister cfgW { envC with okIdentity := false } dbEmpty
        0 "jA" "jR" "n1" "13800001111" "552233" .app).db = dbEmpty) ∧
    (wechatLoginOrRegister cfgW { envW with okUser := false } dbEmpty 0
        "jA" "jR" "n1" "c9" .miniProgram = (.error .serviceBusy, dbEmpty)) ∧
    (accountRegister envW dbEmpty "alice" "pw" "pw" "n1" =
      (.ok "n1",
       { users := [⟨"n1", .user, .active⟩]
         identities := [⟨"n1", .accountPassword, "alice", envW.hash "pw"⟩]
         profiles := [⟨"n1", "alice"⟩] })) := by
  refine ⟨?_, ?_, ?_, ?_⟩
  · exact (registration_atomic { envW with okProfile := false }
      dbEmpty).1 "alice" "pw" "n1" rfl rfl rfl (by decide)
  · exact ((registration_atomic { envC with okIdentity := false }
      dbEmpty).2.1 cfgW 0 "jA" "jR" "n1" "13800001111" "552233" .app
      rfl (by decide) rfl rfl (by decide)).2
  · exact (registration_atomic { envW with okUser := false }
      dbEmpty).2.2.1 cfgW 0 "jA" "jR" "n1" "c9" "open-c9" .miniProgram
      rfl rfl rfl (by decide)
  · exact (registration_atomic envW dbEmpty).2.2.2.1 "alice" "pw" "n1"
      rfl rfl rfl rfl rfl rfl

end UserHub
